import Mathlib

/-!
# Verification of the study-assistant bot core (`main.py`)

A shallow embedding of the bot's core logic:

* Python strings are modelled as `List Char` (`Str`); Python slicing
  `t[a:b]` becomes `(t.drop a).take (b - a)`.
* The two process-wide dictionaries `user_knowledge_base` and
  `user_sessions`, together with the per-user knowledge files on disk,
  form the state `BotState`.  Dictionaries and the disk directory are
  modelled as functions `UserId → Option Str` (`dict.get` semantics).
* External effects (Telegram file download, pypdf extraction, disk
  writes, the Gemini `generate_content` call) are passed in as oracle
  values/functions of type `Except Str _`: `.error e` models the call
  raising an exception whose `str(e)` is `e`.
* `random.randint(0, n)` is modelled by an oracle `rand : Nat` together
  with the hypothesis `rand ≤ n` (the contract of `randint`, whose
  bounds are inclusive).
* Handlers return an outcome record holding the final state, the reply
  text sent to the user, whether the LLM adapter was invoked and with
  which prompt, and (for the document handler) whether the temporary
  downloaded file still exists when the handler returns.
-/

/-- Python strings as lists of characters. -/
abbrev Str := List Char

/-- A Python string literal. -/
def lit (s : String) : Str := s.toList

abbrev UserId := Nat

/-- Process-wide state: the two in-memory dicts (`main.py` lines 30-31)
and the per-user `knowledge_base/<id>.txt` files on disk. -/
structure BotState where
  user_knowledge_base : UserId → Option Str
  user_sessions : UserId → Option Str
  disk : UserId → Option Str

/-- `m[u] = v` on a dictionary modelled as a function. -/
def setStore (m : UserId → Option Str) (u : UserId) (v : Str) : UserId → Option Str :=
  fun x => if x = u then some v else m x

/-- `get_user_context` (`main.py` lines 39-53): RAM first, then disk; a
disk hit populates the RAM cache; a disk read error (or a missing file)
yields `None`, here both folded into `disk u = none`.  Returns the
retrieved text (or `none`) and the possibly updated state. -/
def get_user_context (st : BotState) (user_id : UserId) : Option Str × BotState :=
  match st.user_knowledge_base user_id with
  | some text => (some text, st)
  | none =>
    match st.disk user_id with
    | some text =>
      (some text,
       { st with user_knowledge_base := setStore st.user_knowledge_base user_id text })
    | none => (none, st)

/-- Outcomes of the external calls made by `handle_document`:
`get_file`/`download_to_drive`, the pypdf page loop, and the
`knowledge_base/<id>.txt` write.  `.error e` models a raised exception. -/
structure DocEffects where
  download : Except Str Unit
  pages : Except Str (List Str)
  diskWrite : Except Str Unit

structure DocOutcome where
  state : BotState
  reply : Str
  tempFileExists : Bool

/-- The extraction loop of `main.py` lines 86-88:
`text = ""` then `text += page.extract_text() + "\n"` per page. -/
def extractedText (pages : List Str) : Str :=
  pages.foldl (fun text page => text ++ page ++ lit "\n") []

/-- `handle_document` (`main.py` lines 70-99).  The temporary file
`temp_<user_id>.pdf` exists once the download succeeded and is deleted
only by the `os.remove` on line 95, which runs after extraction and the
disk write; an exception in between jumps to the `except` block without
removing it. -/
def handle_document (st : BotState) (user_id : UserId) (mime : Str) (eff : DocEffects) :
    DocOutcome :=
  if mime ≠ lit "application/pdf" then
    { state := st, reply := lit "⚠️ Strictly PDFs only.", tempFileExists := false }
  else
    match eff.download with
    | Except.error e =>
      { state := st, reply := lit "❌ Failure: " ++ e, tempFileExists := false }
    | Except.ok _ =>
      match eff.pages with
      | Except.error e =>
        { state := st, reply := lit "❌ Failure: " ++ e, tempFileExists := true }
      | Except.ok pages =>
        let text := extractedText pages
        let st1 := { st with
          user_knowledge_base := setStore st.user_knowledge_base user_id text }
        match eff.diskWrite with
        | Except.error e =>
          { state := st1, reply := lit "❌ Failure: " ++ e, tempFileExists := true }
        | Except.ok _ =>
          { state := { st1 with disk := setStore st1.disk user_id text },
            reply := lit "✅ **Saved.** I have learned this course.\nType `/quiz` to test me.",
            tempFileExists := false }

/-- `base_instruction` (`main.py` lines 116-121). -/
def base_instruction (prompt_context : Str) : Str :=
  lit "Act as a strict Professor at UNILORIN. "
    ++ lit "Scan the notes below. Generate a question based strictly on the text.\n"
    ++ lit "CRITICAL RULE: You must include a 'Context Hint' at the bottom, quoting the sentence in the text that inspired this question.\n"
    ++ lit "NOTES:\n" ++ prompt_context ++ lit "\n\n"

/-- The random-mode snippet selection (`main.py` lines 125-129): for
text longer than 4000 characters, `full_text[start : start+4000]` where
`start = random.randint(0, len(full_text) - 4000)` is passed in as
`rand`; otherwise the full text. -/
def randomSnippet (full_text : Str) (rand : Nat) : Str :=
  if 4000 < full_text.length then (full_text.drop rand).take 4000
  else full_text

/-- Mode selection and prompt assembly of `generate_quiz`
(`main.py` lines 112-146); returns `(mode, prompt)`. -/
def quizPrompt (full_text : Str) (args : List Str) (rand : Nat) : Str × Str :=
  let prompt_context := full_text.take 40000
  match args with
  | arg0 :: _ =>
    if arg0.map Char.toLower = lit "random" then
      (lit "random",
        base_instruction prompt_context
          ++ lit " TASK: Ask ONE question based ONLY on this random snippet: "
          ++ randomSnippet full_text rand
          ++ lit "\nCONSTRAINT: Max 2 sentences.")
    else
      (lit "topic",
        base_instruction prompt_context
          ++ lit " TASK: Ask ONE tough question about '"
          ++ List.intercalate (lit " ") args
          ++ lit "'.\nCONSTRAINT: Max 2 sentences.")
  | [] =>
      (lit "exam",
        base_instruction prompt_context
          ++ lit "TASK: Generate ONE standard exam question.\n"
          ++ lit "PRIORITIZE: 'Differentiate', 'Discuss process', 'List factors'.\n"
          ++ lit "FORMAT:\n"
          ++ lit "**Question:** [Your Question Here]\n"
          ++ lit "🔍 **Context:** [Quote the specific sentence from notes used]")

structure QuizOutcome where
  state : BotState
  reply : Str
  llmCalled : Bool
  promptSent : Option Str
  mode : Str

/-- `generate_quiz` (`main.py` lines 101-161).  `llm` is the Gemini
adapter: `model.generate_content(prompt)` followed by `.text`, with
`.error e` modelling either step raising.  On success the question is
saved to `user_sessions` and the disclaimer appended; on failure the
error reply is sent and the session is untouched. -/
def generate_quiz (st : BotState) (user_id : UserId) (args : List Str) (rand : Nat)
    (llm : Str → Except Str Str) : QuizOutcome :=
  match get_user_context st user_id with
  | (none, st1) =>
    { state := st1, reply := lit "⚠️ Memory empty. Upload a PDF first.",
      llmCalled := false, promptSent := none, mode := lit "exam" }
  | (some full_text, st1) =>
    if full_text.isEmpty then
      { state := st1, reply := lit "⚠️ Memory empty. Upload a PDF first.",
        llmCalled := false, promptSent := none, mode := lit "exam" }
    else
      let mp := quizPrompt full_text args rand
      match llm mp.2 with
      | Except.ok question_text =>
        { state := { st1 with
            user_sessions := setStore st1.user_sessions user_id question_text },
          reply := question_text ++ lit "\n\n_⚠️ Study Aid Only. Not a leak._",
          llmCalled := true, promptSent := some mp.2, mode := mp.1 }
      | Except.error e =>
        { state := st1, reply := lit "❌ AI Error: " ++ e,
          llmCalled := true, promptSent := some mp.2, mode := mp.1 }

structure MsgOutcome where
  state : BotState
  reply : Str
  llmCalled : Bool
  promptSent : Option Str

/-- The chat prompt of `handle_message` (`main.py` lines 178-187), one
`lit` chunk per f-string fragment of the source. -/
def chatPrompt (full_text last_question user_input : Str) : Str :=
  lit "You are a Professor. \n"
    ++ lit "Context Notes: " ++ full_text.take 30000 ++ lit "\n"
    ++ lit "Last Question You Asked: '" ++ last_question ++ lit "'\n\n"
    ++ lit "Student Message: '" ++ user_input ++ lit "'\n\n"
    ++ lit "INSTRUCTIONS:\n"
    ++ lit "1. **IF ANSWERING:** Grade it 0/10 based on notes. Correct ruthlessly.\n"
    ++ lit "2. **IF GIVING UP (e.g. 'IDK', 'Answer it', 'Tell me'):** Provide the correct answer to the Last Question above.\n"
    ++ lit "3. **IF CHATTING:** Be professional.\n"

/-- `handle_message` (`main.py` lines 164-193). -/
def handle_message (st : BotState) (user_id : UserId) (user_input : Str)
    (llm : Str → Except Str Str) : MsgOutcome :=
  match get_user_context st user_id with
  | (none, st1) =>
    { state := st1, reply := lit "⚠️ No PDF found. Please upload notes first.",
      llmCalled := false, promptSent := none }
  | (some full_text, st1) =>
    if full_text.isEmpty then
      { state := st1, reply := lit "⚠️ No PDF found. Please upload notes first.",
        llmCalled := false, promptSent := none }
    else
      let last_question := (st1.user_sessions user_id).getD (lit "No active question.")
      let prompt := chatPrompt full_text last_question user_input
      match llm prompt with
      | Except.ok t =>
        { state := st1, reply := t, llmCalled := true, promptSent := some prompt }
      | Except.error e =>
        { state := st1, reply := lit "❌ Error: " ++ e,
          llmCalled := true, promptSent := some prompt }

/-- The empty start state: both dicts empty, no files on disk. -/
def initState : BotState :=
  { user_knowledge_base := fun _ => none, user_sessions := fun _ => none,
    disk := fun _ => none }

/-- A state in which user 1 has the knowledge text "notes" in memory. -/
def knowState : BotState :=
  { initState with
    user_knowledge_base := setStore initState.user_knowledge_base 1 (lit "notes") }

/-! ## Helper lemmas about `get_user_context` -/

/-- A RAM hit returns the cached text and leaves the state unchanged. -/
theorem get_user_context_of_mem (st : BotState) (u : UserId) (t : Str)
    (h : st.user_knowledge_base u = some t) :
    get_user_context st u = (some t, st) := by
  unfold get_user_context
  rw [h]

/-- `get_user_context` never touches sessions or disk. -/
theorem get_user_context_frame (st : BotState) (u : UserId) :
    (get_user_context st u).2.user_sessions = st.user_sessions ∧
    (get_user_context st u).2.disk = st.disk := by
  unfold get_user_context
  cases st.user_knowledge_base u <;> [skip; exact ⟨rfl, rfl⟩]
  cases st.disk u <;> exact ⟨rfl, rfl⟩

/-- When `get_user_context` finds text, the resulting state caches it. -/
theorem get_user_context_caches (st : BotState) (u : UserId) (t : Str) (st1 : BotState)
    (h : get_user_context st u = (some t, st1)) :
    st1.user_knowledge_base u = some t := by
  unfold get_user_context at h
  cases hm : st.user_knowledge_base u with
  | some t0 =>
    rw [hm] at h
    cases h
    exact hm
  | none =>
    rw [hm] at h
    cases hd : st.disk u with
    | some t0 =>
      rw [hd] at h
      cases h
      simp [setStore]
    | none =>
      rw [hd] at h
      cases h

/-! ## C1: the random-mode snippet window -/

/-- C1: for a stored text of length `L > 4000`, the random-mode snippet
selected by the quiz handler (`randomSnippet`, called by `quizPrompt`
inside `generate_quiz`) has length exactly 4000 and is a contiguous
window of the text, provided the start offset lies in `[0, L - 4000]`
— which is exactly the contract of `random.randint(0, L - 4000)`;
for a text of length `L ≤ 4000`, the snippet is the full text
unchanged. -/
theorem randomSnippet_window (full_text : Str) (rand : Nat) :
    (4000 < full_text.length → rand ≤ full_text.length - 4000 →
      (randomSnippet full_text rand).length = 4000 ∧
      randomSnippet full_text rand <:+: full_text) ∧
    (full_text.length ≤ 4000 → randomSnippet full_text rand = full_text) := by
  constructor
  · intro hlen hrand
    unfold randomSnippet
    rw [if_pos hlen]
    constructor
    · simp only [List.length_take, List.length_drop]
      omega
    · exact ((List.take_prefix 4000 (full_text.drop rand)).isInfix).trans
        (List.drop_suffix rand full_text).isInfix
  · intro hlen
    unfold randomSnippet
    rw [if_neg (by omega)]

/-- Witness for C1 at a text of length 4001 with offset 1, and at the
short text "abc". -/
theorem randomSnippet_window_witness :
    ((randomSnippet (List.replicate 4001 'a') 1).length = 4000 ∧
      randomSnippet (List.replicate 4001 'a') 1 <:+: List.replicate 4001 'a') ∧
    randomSnippet (lit "abc") 7 = lit "abc" := by
  constructor
  · exact (randomSnippet_window (List.replicate 4001 'a') 1).1
      (by rw [List.length_replicate]; omega) (by rw [List.length_replicate])
  · exact (randomSnippet_window (lit "abc") 7).2 (by decide)

/-! ## C2: temporary-file cleanup in `handle_document` -/

/-- C2 counterexample: a PDF upload whose download succeeds but whose
extraction raises leaves `temp_<userId>.pdf` behind — the `os.remove`
on line 95 sits inside the `try` block after extraction, and the
`except` branch does not delete the file.  So the temporary file is
not removed on every exit path. -/
theorem handle_document_leaks_temp_on_extraction_failure :
    (handle_document initState 1 (lit "application/pdf")
      { download := Except.ok (), pages := Except.error (lit "EOF marker not found"),
        diskWrite := Except.ok () }).tempFileExists = true := by
  rfl

/-- C2 amended: after a successful download, the temporary file is
removed exactly when both the extraction and the disk write succeed;
if either of them raises, the handler reports the failure but the
temporary file is left behind. -/
theorem handle_document_cleanup_on_success_only (st : BotState) (u : UserId)
    (eff : DocEffects) (hd : eff.download = Except.ok ()) :
    (handle_document st u (lit "application/pdf") eff).tempFileExists =
      !(eff.pages.isOk && eff.diskWrite.isOk) := by
  unfold handle_document
  rw [if_neg (by simp), hd]
  cases eff.pages with
  | error e => rfl
  | ok pages => cases eff.diskWrite with
    | error e => rfl
    | ok _ => rfl

/-- Witness for C2's amended theorem: a fully successful upload removes
the temporary file. -/
theorem handle_document_cleanup_on_success_only_witness :
    (handle_document initState 1 (lit "application/pdf")
      { download := Except.ok (), pages := Except.ok [lit "Page1\n"],
        diskWrite := Except.ok () }).tempFileExists = false := by
  have h := handle_document_cleanup_on_success_only initState 1
    { download := Except.ok (), pages := Except.ok [lit "Page1\n"],
      diskWrite := Except.ok () } rfl
  simpa using h

/-! ## C3, C5, C9: storing and retrieving knowledge -/

/-- C3: storing the extracted text for a user (as the document-upload
handler does on line 90) followed immediately by `get_user_context` for
the same user returns exactly that text, served from the in-memory map
(the state is returned unchanged, i.e. no disk promotion happened).
This holds whether or not the subsequent disk write succeeds. -/
theorem put_then_get_roundtrip (st : BotState) (u : UserId) (eff : DocEffects)
    (pages : List Str) (hd : eff.download = Except.ok ())
    (hp : eff.pages = Except.ok pages) :
    get_user_context (handle_document st u (lit "application/pdf") eff).state u
      = (some (extractedText pages),
         (handle_document st u (lit "application/pdf") eff).state) := by
  unfold handle_document
  rw [if_neg (by simp), hd, hp]
  cases eff.diskWrite with
  | error e => exact get_user_context_of_mem _ _ _ (by simp [setStore])
  | ok _ => exact get_user_context_of_mem _ _ _ (by simp [setStore])

/-- Witness for C3: a concrete successful upload of one page. -/
theorem put_then_get_roundtrip_witness :
    get_user_context (handle_document initState 2 (lit "application/pdf")
      { download := Except.ok (), pages := Except.ok [lit "hello"],
        diskWrite := Except.ok () }).state 2
      = (some (extractedText [lit "hello"]),
         (handle_document initState 2 (lit "application/pdf")
          { download := Except.ok (), pages := Except.ok [lit "hello"],
            diskWrite := Except.ok () }).state) :=
  put_then_get_roundtrip initState 2 _ [lit "hello"] rfl rfl

/-- The page loop is the concatenation of the page texts, each with a
newline appended. -/
theorem extractedText_eq_join (pages : List Str) :
    extractedText pages = (pages.map (fun p => p ++ lit "\n")).flatten := by
  unfold extractedText
  suffices h : ∀ acc : Str,
      pages.foldl (fun text page => text ++ page ++ lit "\n") acc
        = acc ++ (pages.map (fun p => p ++ lit "\n")).flatten by
    simpa using h []
  induction pages with
  | nil => intro acc; simp
  | cons p ps ih =>
      intro acc
      rw [List.foldl_cons, ih (acc ++ p ++ lit "\n")]
      simp [List.append_assoc]

/-- C5: after a fully successful PDF upload, the knowledge text stored
for the user — in memory and on disk — is the concatenation of each
page's extracted text with a newline appended after each page. -/
theorem stored_text_is_pages_joined (st : BotState) (u : UserId) (eff : DocEffects)
    (pages : List Str) (hd : eff.download = Except.ok ())
    (hp : eff.pages = Except.ok pages) (hw : eff.diskWrite = Except.ok ()) :
    (handle_document st u (lit "application/pdf") eff).state.user_knowledge_base u
      = some ((pages.map (fun p => p ++ lit "\n")).flatten) ∧
    (handle_document st u (lit "application/pdf") eff).state.disk u
      = some ((pages.map (fun p => p ++ lit "\n")).flatten) := by
  unfold handle_document
  rw [if_neg (by simp), hd, hp, hw]
  constructor <;> simp [setStore, extractedText_eq_join]

/-- Witness for C5: pages "Page1\n" and "Page2\n" store exactly
"Page1\n\nPage2\n\n". -/
theorem stored_text_is_pages_joined_witness :
    (handle_document initState 3 (lit "application/pdf")
      { download := Except.ok (), pages := Except.ok [lit "Page1\n", lit "Page2\n"],
        diskWrite := Except.ok () }).state.user_knowledge_base 3
      = some (lit "Page1\n\nPage2\n\n") := by
  have h := stored_text_is_pages_joined initState 3
    { download := Except.ok (), pages := Except.ok [lit "Page1\n", lit "Page2\n"],
      diskWrite := Except.ok () } [lit "Page1\n", lit "Page2\n"] rfl rfl rfl
  rw [h.1]
  decide

/-- C9: the upload is not atomic across the two storage layers.  If the
disk write raises, the handler reports the failure, the disk entry is
unchanged — yet `get_user_context` already serves the new text from the
in-memory map, which was updated before the write. -/
theorem upload_memory_updated_before_disk (st : BotState) (u : UserId) (eff : DocEffects)
    (pages : List Str) (e : Str) (hd : eff.download = Except.ok ())
    (hp : eff.pages = Except.ok pages) (hw : eff.diskWrite = Except.error e) :
    (handle_document st u (lit "application/pdf") eff).reply = lit "❌ Failure: " ++ e ∧
    (handle_document st u (lit "application/pdf") eff).state.disk u = st.disk u ∧
    get_user_context (handle_document st u (lit "application/pdf") eff).state u
      = (some (extractedText pages),
         (handle_document st u (lit "application/pdf") eff).state) := by
  unfold handle_document
  rw [if_neg (by simp), hd, hp, hw]
  exact ⟨rfl, rfl, get_user_context_of_mem _ _ _ (by simp [setStore])⟩

/-- Witness for C9: extraction succeeds, the disk write fails. -/
theorem upload_memory_updated_before_disk_witness :
    (handle_document initState 4 (lit "application/pdf")
      { download := Except.ok (), pages := Except.ok [lit "notes"],
        diskWrite := Except.error (lit "No space left on device") }).reply
      = lit "❌ Failure: " ++ lit "No space left on device" ∧
    get_user_context (handle_document initState 4 (lit "application/pdf")
      { download := Except.ok (), pages := Except.ok [lit "notes"],
        diskWrite := Except.error (lit "No space left on device") }).state 4
      = (some (extractedText [lit "notes"]),
         (handle_document initState 4 (lit "application/pdf")
          { download := Except.ok (), pages := Except.ok [lit "notes"],
            diskWrite := Except.error (lit "No space left on device") }).state) := by
  have h := upload_memory_updated_before_disk initState 4
    { download := Except.ok (), pages := Except.ok [lit "notes"],
      diskWrite := Except.error (lit "No space left on device") }
    [lit "notes"] (lit "No space left on device") rfl rfl rfl
  exact ⟨h.1, h.2.2⟩

/-! ## C4, C8, C10: quiz and chat guard paths -/

/-- C4: a quiz request (any mode: any `args`, any `rand`) by a user with
no stored knowledge — nothing in memory, nothing on disk — makes no call
to the LLM adapter and returns the fixed "memory empty, upload a PDF
first" reply. -/
theorem quiz_no_knowledge_no_llm (st : BotState) (u : UserId) (args : List Str)
    (rand : Nat) (llm : Str → Except Str Str)
    (hm : st.user_knowledge_base u = none) (hd : st.disk u = none) :
    (generate_quiz st u args rand llm).llmCalled = false ∧
    (generate_quiz st u args rand llm).promptSent = none ∧
    (generate_quiz st u args rand llm).reply = lit "⚠️ Memory empty. Upload a PDF first." := by
  have hctx : get_user_context st u = (none, st) := by
    unfold get_user_context
    rw [hm, hd]
  unfold generate_quiz
  rw [hctx]
  exact ⟨rfl, rfl, rfl⟩

/-- Witness for C4: the empty start state, in each of the three modes. -/
theorem quiz_no_knowledge_no_llm_witness :
    ((generate_quiz initState 1 [] 0 (fun _ => Except.ok (lit "Q"))).llmCalled = false ∧
      (generate_quiz initState 1 [] 0 (fun _ => Except.ok (lit "Q"))).reply
        = lit "⚠️ Memory empty. Upload a PDF first.") ∧
    (generate_quiz initState 1 [lit "random"] 0 (fun _ => Except.ok (lit "Q"))).llmCalled
      = false ∧
    (generate_quiz initState 1 [lit "algae"] 0 (fun _ => Except.ok (lit "Q"))).llmCalled
      = false := by
  refine ⟨⟨?_, ?_⟩, ?_, ?_⟩
  · exact (quiz_no_knowledge_no_llm initState 1 [] 0 _ rfl rfl).1
  · exact (quiz_no_knowledge_no_llm initState 1 [] 0 _ rfl rfl).2.2
  · exact (quiz_no_knowledge_no_llm initState 1 [lit "random"] 0 _ rfl rfl).1
  · exact (quiz_no_knowledge_no_llm initState 1 [lit "algae"] 0 _ rfl rfl).1

/-- C8: a user whose stored knowledge text is the empty string is
treated by both the quiz command and free-text chat exactly as if no
knowledge existed — the guard is `if not full_text`, i.e. truthiness of
the text, not presence of the entry: both reply with their
"upload a PDF first" message and make no LLM call. -/
theorem empty_text_treated_as_no_knowledge (st : BotState) (u : UserId)
    (args : List Str) (rand : Nat) (llm : Str → Except Str Str)
    (msg : Str) (llm2 : Str → Except Str Str)
    (h : st.user_knowledge_base u = some []) :
    ((generate_quiz st u args rand llm).llmCalled = false ∧
      (generate_quiz st u args rand llm).promptSent = none ∧
      (generate_quiz st u args rand llm).reply
        = lit "⚠️ Memory empty. Upload a PDF first.") ∧
    (handle_message st u msg llm2).llmCalled = false ∧
    (handle_message st u msg llm2).promptSent = none ∧
    (handle_message st u msg llm2).reply
      = lit "⚠️ No PDF found. Please upload notes first." := by
  have hctx : get_user_context st u = (some [], st) := get_user_context_of_mem st u [] h
  unfold generate_quiz handle_message
  rw [hctx]
  exact ⟨⟨rfl, rfl, rfl⟩, rfl, rfl, rfl⟩

/-- Witness for C8: a state holding the empty string for user 1. -/
theorem empty_text_treated_as_no_knowledge_witness :
    ((generate_quiz
        { initState with user_knowledge_base := setStore initState.user_knowledge_base 1 [] }
        1 [] 0 (fun _ => Except.ok (lit "Q"))).llmCalled = false ∧
      (generate_quiz
        { initState with user_knowledge_base := setStore initState.user_knowledge_base 1 [] }
        1 [] 0 (fun _ => Except.ok (lit "Q"))).promptSent = none ∧
      (generate_quiz
        { initState with user_knowledge_base := setStore initState.user_knowledge_base 1 [] }
        1 [] 0 (fun _ => Except.ok (lit "Q"))).reply
        = lit "⚠️ Memory empty. Upload a PDF first.") ∧
    (handle_message
        { initState with user_knowledge_base := setStore initState.user_knowledge_base 1 [] }
        1 (lit "hi") (fun _ => Except.ok (lit "A"))).llmCalled = false ∧
    (handle_message
        { initState with user_knowledge_base := setStore initState.user_knowledge_base 1 [] }
        1 (lit "hi") (fun _ => Except.ok (lit "A"))).promptSent = none ∧
    (handle_message
        { initState with user_knowledge_base := setStore initState.user_knowledge_base 1 [] }
        1 (lit "hi") (fun _ => Except.ok (lit "A"))).reply
      = lit "⚠️ No PDF found. Please upload notes first." :=
  empty_text_treated_as_no_knowledge _ 1 [] 0 _ (lit "hi") _ (by simp [setStore, initState])

/-- C10: if the LLM generation call raises, `generate_quiz` leaves the
whole session store — in particular the last-question entry of the
requesting user — exactly as it was: the entry is only overwritten
after a generation call returns successfully. -/
theorem llm_failure_leaves_session_unchanged (st : BotState) (u : UserId)
    (args : List Str) (rand : Nat) (llm : Str → Except Str Str) (p e : Str)
    (hp : (generate_quiz st u args rand llm).promptSent = some p)
    (he : llm p = Except.error e) :
    (generate_quiz st u args rand llm).state.user_sessions = st.user_sessions := by
  rcases hctx : get_user_context st u with ⟨ft?, st1⟩
  have hs : st1.user_sessions = st.user_sessions := by
    have h2 := (get_user_context_frame st u).1
    rw [hctx] at h2
    exact h2
  unfold generate_quiz at hp ⊢
  rw [hctx] at hp ⊢
  cases ft? with
  | none => exact hs
  | some ft =>
    dsimp only at hp ⊢
    cases hemp : ft.isEmpty with
    | true =>
      rw [List.isEmpty_iff] at hemp
      subst hemp
      simp at hp
    | false =>
      simp only [hemp, Bool.false_eq_true, if_false] at hp ⊢
      cases hl : llm (quizPrompt ft args rand).2 with
      | ok q =>
        rw [hl] at hp
        simp only [Option.some.injEq] at hp
        rw [← hp] at he
        rw [he] at hl
        cases hl
      | error e2 => exact hs

/-- Witness for C10: a quiz request against stored knowledge whose LLM
call raises leaves the session store untouched. -/
theorem llm_failure_leaves_session_unchanged_witness :
    (generate_quiz knowState 1 [] 0
      (fun _ => Except.error (lit "429 quota exceeded"))).state.user_sessions
      = knowState.user_sessions :=
  llm_failure_leaves_session_unchanged knowState 1 [] 0
    (fun _ => Except.error (lit "429 quota exceeded"))
    (quizPrompt (lit "notes") [] 0).2 (lit "429 quota exceeded") rfl rfl

/-! ## C6: session store feeds the next chat prompt -/

/-- If `generate_quiz` sent a prompt at all, the user had non-empty
knowledge and the prompt is the one `quizPrompt` builds from it. -/
theorem generate_quiz_sent_prompt_shape (st : BotState) (u : UserId) (args : List Str)
    (rand : Nat) (llm : Str → Except Str Str) (p : Str)
    (hp : (generate_quiz st u args rand llm).promptSent = some p) :
    ∃ ft st1, get_user_context st u = (some ft, st1) ∧ ft.isEmpty = false ∧
      p = (quizPrompt ft args rand).2 := by
  rcases hctx : get_user_context st u with ⟨ft?, st1⟩
  unfold generate_quiz at hp
  rw [hctx] at hp
  cases ft? with
  | none => simp at hp
  | some ft =>
    dsimp only at hp
    cases hemp : ft.isEmpty with
    | true =>
      rw [List.isEmpty_iff] at hemp
      subst hemp
      simp at hp
    | false =>
      refine ⟨ft, st1, hctx ▸ rfl, hemp, ?_⟩
      simp only [hemp, Bool.false_eq_true, if_false] at hp
      cases hl : llm (quizPrompt ft args rand).2 with
      | ok q =>
        rw [hl] at hp
        simp only [Option.some.injEq] at hp
        exact hp.symm
      | error e =>
        rw [hl] at hp
        simp only [Option.some.injEq] at hp
        exact hp.symm

/-- On a successful LLM call, `generate_quiz` produces exactly the
success outcome: session updated, disclaimer appended. -/
theorem generate_quiz_success (st : BotState) (u : UserId) (args : List Str)
    (rand : Nat) (llm : Str → Except Str Str) (q ft : Str) (st1 : BotState)
    (hctx : get_user_context st u = (some ft, st1)) (hft : ft.isEmpty = false)
    (hl : llm (quizPrompt ft args rand).2 = Except.ok q) :
    generate_quiz st u args rand llm =
      { state := { st1 with user_sessions := setStore st1.user_sessions u q },
        reply := q ++ lit "\n\n_⚠️ Study Aid Only. Not a leak._",
        llmCalled := true, promptSent := some (quizPrompt ft args rand).2,
        mode := (quizPrompt ft args rand).1 } := by
  unfold generate_quiz
  rw [hctx]
  dsimp only
  simp only [hft, Bool.false_eq_true, if_false]
  rw [hl]

/-- For a user with cached non-empty knowledge `ft` and a session entry
`q`, `handle_message` sends exactly the chat prompt built from `ft`,
`q` and the incoming message. -/
theorem handle_message_sends_chatPrompt (st : BotState) (u : UserId) (msg : Str)
    (llm2 : Str → Except Str Str) (ft q : Str)
    (hk : st.user_knowledge_base u = some ft) (hft : ft.isEmpty = false)
    (hs : st.user_sessions u = some q) :
    (handle_message st u msg llm2).promptSent = some (chatPrompt ft q msg) := by
  have hctx := get_user_context_of_mem st u ft hk
  unfold handle_message
  rw [hctx]
  dsimp only
  simp only [hft, Bool.false_eq_true, if_false]
  rw [hs]
  simp only [Option.getD_some]
  cases hl2 : llm2 (chatPrompt ft q msg) <;> rfl

/-- The "Last Question You Asked" context, with the question it wraps,
is a contiguous part of every chat prompt. -/
theorem lastQuestion_infix_chatPrompt (ft q m : Str) :
    (lit "Last Question You Asked: '" ++ q ++ lit "'") <:+: chatPrompt ft q m := by
  refine ⟨lit "You are a Professor. \n" ++ lit "Context Notes: " ++ ft.take 30000 ++ lit "\n",
    lit "\n\n" ++ lit "Student Message: '" ++ m ++ lit "'\n\n" ++ lit "INSTRUCTIONS:\n"
      ++ lit "1. **IF ANSWERING:** Grade it 0/10 based on notes. Correct ruthlessly.\n"
      ++ lit "2. **IF GIVING UP (e.g. 'IDK', 'Answer it', 'Tell me'):** Provide the correct answer to the Last Question above.\n"
      ++ lit "3. **IF CHATTING:** Be professional.\n", ?_⟩
  have h1 : lit "'\n\n" = lit "'" ++ lit "\n\n" := by decide
  simp only [chatPrompt, h1]
  simp [List.append_assoc]

/-- C6: when a quiz generation call returns text `Q`, the session store
holds `Q` for that user, and the next free-text chat message from that
user produces a generation prompt that contains `Q` wrapped in the
"Last Question You Asked: '...'" context. -/
theorem quiz_session_then_chat_context (st : BotState) (u : UserId) (args : List Str)
    (rand : Nat) (llm llm2 : Str → Except Str Str) (msg p Q : Str)
    (hp : (generate_quiz st u args rand llm).promptSent = some p)
    (hQ : llm p = Except.ok Q) :
    (generate_quiz st u args rand llm).state.user_sessions u = some Q ∧
    ∃ p2, (handle_message (generate_quiz st u args rand llm).state u msg llm2).promptSent
        = some p2 ∧
      (lit "Last Question You Asked: '" ++ Q ++ lit "'") <:+: p2 := by
  obtain ⟨ft, st1, hctx, hemp, hpe⟩ :=
    generate_quiz_sent_prompt_shape st u args rand llm p hp
  subst hpe
  rw [generate_quiz_success st u args rand llm Q ft st1 hctx hemp hQ]
  constructor
  · simp [setStore]
  · refine ⟨chatPrompt ft Q msg, ?_, lastQuestion_infix_chatPrompt ft Q msg⟩
    apply handle_message_sends_chatPrompt
    · exact get_user_context_caches st u ft st1 hctx
    · exact hemp
    · simp [setStore]

/-- Witness for C6: user 1 with knowledge "notes" runs `/quiz`, the LLM
returns "Q1", then the user sends "idk". -/
theorem quiz_session_then_chat_context_witness :
    (generate_quiz knowState 1 [] 0
        (fun _ => Except.ok (lit "Q1"))).state.user_sessions 1 = some (lit "Q1") ∧
    ∃ p2, (handle_message
        (generate_quiz knowState 1 [] 0 (fun _ => Except.ok (lit "Q1"))).state 1
        (lit "idk") (fun _ => Except.ok (lit "ok"))).promptSent = some p2 ∧
      (lit "Last Question You Asked: '" ++ lit "Q1" ++ lit "'") <:+: p2 :=
  quiz_session_then_chat_context knowState 1 [] 0 (fun _ => Except.ok (lit "Q1"))
    (fun _ => Except.ok (lit "ok")) (lit "idk")
    (quizPrompt (lit "notes") [] 0).2 (lit "Q1") rfl rfl

/-! ## C7: the mode icon never reaches the reply -/

/-- C7 (divergence witness): a successful exam-mode quiz run for a user
with stored knowledge.  The reply is the generated question with the
disclaimer appended and nothing else: none of the three mode icons
(🔥 exam, 🎲 random, 🔍 topic) occurs in it, although the `icons`
mapping is built on line 158 of `main.py` — it is never used, so the
mode-specific prefix never reaches the user. -/
theorem quiz_reply_has_no_mode_icon :
    (generate_quiz knowState 1 [] 0 (fun _ => Except.ok (lit "Q1"))).mode = lit "exam" ∧
    (generate_quiz knowState 1 [] 0 (fun _ => Except.ok (lit "Q1"))).reply
      = lit "Q1\n\n_⚠️ Study Aid Only. Not a leak._" ∧
    ¬ (lit "🔥" <:+: (generate_quiz knowState 1 [] 0 (fun _ => Except.ok (lit "Q1"))).reply) ∧
    ¬ (lit "🎲" <:+: (generate_quiz knowState 1 [] 0 (fun _ => Except.ok (lit "Q1"))).reply) ∧
    ¬ (lit "🔍" <:+: (generate_quiz knowState 1 [] 0 (fun _ => Except.ok (lit "Q1"))).reply) := by
  decide
